import Mathlib

/-!
Shallow embedding of the Ceph object-class `cls_cas.cc` (content-addressed,
reference-counted storage): the refcount state machine with its PUT / UP /
DOWN entry points, the pin tracker, and the metadata sideband, together with
theorems checking the natural-language specification against it.

Conventions of the embedding:
* The backend state for one object identity is `Store := Option Obj`; `none`
  is an absent object.  Each C function that takes a `cls_method_context_t`
  becomes a Lean function from `Store` (plus its explicit arguments) to its
  C `int` return value paired with the successor state and any out values.
* C out parameters are modelled explicitly: where the source may leave an
  out variable unwritten, the Lean function returns what the variable holds
  afterwards given its value on entry (documented per function).
* `uint64_t` arithmetic is `Nat` reduced mod `2 ^ 64` (`u64`), never a
  bit-vector type, so that overflow behaviour is explicit.
-/

namespace ClsCas

/-- Linux errno value ENOENT (2); the class returns errors negated, in the C
convention. -/
def ENOENT : Int := 2

/-- Linux errno value EIO (5). -/
def EIO : Int := 5

/-- Linux errno value EINVAL (22). -/
def EINVAL : Int := 22

/-- Linux errno value ENODATA (61). -/
def ENODATA : Int := 61

/-- Maximum representable `uint64_t` value, `std::numeric_limits<uint64_t>::max()`. -/
def U64MAX : Nat := 2 ^ 64 - 1

/-- Value of a C `uint64_t` expression given its mathematical value `z`:
reduced mod `2 ^ 64` (C unsigned arithmetic is modular; a negative `int64_t`
operand is converted to `uint64_t` the same way). -/
def u64 (z : Int) : Nat := (z % (2 ^ 64 : Int)).toNat

/-- Conversion of a `uint64_t` value to the C `int` return type (32 bits,
two's-complement wrap, as gcc and clang define out-of-range conversion). -/
def toCInt (n : Nat) : Int :=
  if n % 2 ^ 32 < 2 ^ 31 then ((n % 2 ^ 32 : Nat) : Int)
  else ((n % 2 ^ 32 : Nat) : Int) - 2 ^ 32

/-- A persisted xattr holding one encoded 64-bit value: missing from the
object, present but failing to decode (corruption), or present with decoded
value `n` (`n < 2 ^ 64` whenever written by this class). -/
inductive Attr where
  | absent : Attr
  | malformed : Attr
  | value : Nat → Attr
deriving DecidableEq

/-- State of one RADOS object as the class observes it: the payload bytes and
the three groups of xattrs (`cas.refcount`, `cas.pinned`, `cas.meta.*`). -/
structure Obj where
  payload : List Nat
  refcountA : Attr
  pinnedA : Attr
  meta : List (String × String)
deriving DecidableEq

/-- Backend state for one object identity: `none` when the object is absent. -/
abbrev Store := Option Obj

/-- cls_cxx_stat: 0 when the object exists, -ENOENT otherwise. -/
def cls_cxx_stat (s : Store) : Int :=
  match s with
  | none => -ENOENT
  | some _ => 0

/-- cls_cxx_write_full: replace the payload in full, creating the object
(with no xattrs yet) when it is absent. -/
def cls_cxx_write_full (s : Store) (data : List Nat) : Int × Store :=
  match s with
  | none => (0, some { payload := data, refcountA := .absent, pinnedA := .absent, meta := [] })
  | some o => (0, some { o with payload := data })

/-- cls_cxx_remove: delete the payload and every xattr as one unit. -/
def cls_cxx_remove (s : Store) : Int × Store :=
  match s with
  | none => (-ENOENT, none)
  | some _ => (0, none)

/-- get_refcount (cls_cas.cc lines 68-89): read the `cas.refcount` xattr.
Returns the C return value paired with the value of the caller's out
variable afterwards.  getxattr on an absent object gives -ENOENT and on a
present object without the xattr gives -ENODATA; the source maps both to
success with `*refcount = 0`.  A present xattr that fails to decode gives
- EIO; the sole caller (`mod_refcount`) initializes its variable to 0 and
returns before reading it, so the out component is 0 there as well. -/
def get_refcount (s : Store) : Int × Nat :=
  match s with
  | none => (0, 0)
  | some o =>
    match o.refcountA with
    | .absent => (0, 0)
    | .malformed => (- EIO, 0)
    | .value n => (0, n)

/-- set_refcount (cls_cas.cc lines 98-108): overwrite the `cas.refcount`
xattr.  Every call site has a present object (stat or write_full came
first), so the absent case is unreachable. -/
def set_refcount (s : Store) (refcount : Nat) : Int × Store :=
  match s with
  | none => (-ENOENT, none)
  | some o => (0, some { o with refcountA := .value refcount })

/-- pin_object (cls_cas.cc lines 117-127): set the `cas.pinned` xattr to the
current wall-clock time, passed here as `now`. -/
def pin_object (s : Store) (now : Nat) : Int × Store :=
  match s with
  | none => (-ENOENT, none)
  | some o => (0, some { o with pinnedA := .value now })

/-- object_pinned (cls_cas.cc lines 138-169): read the `cas.pinned` xattr.
`p0` is the value the caller's out_pinned variable holds on entry.  When the
xattr is absent the source sets `*out_pinned = false`; when it is present
and decodes, the source executes `return 0` from inside the try block (line
155), so the block at lines 161-166 that would write the out parameters is
unreachable and the variable keeps `p0`.  On -ENOENT or decode failure the
source returns the error without touching the variable. -/
def object_pinned (s : Store) (p0 : Bool) : Int × Bool :=
  match s with
  | none => (-ENOENT, p0)
  | some o =>
    match o.pinnedA with
    | .absent => (0, false)
    | .malformed => (- EIO, p0)
    | .value _ => (0, p0)

/-- mod_refcount (cls_cas.cc lines 179-209).  The C expression
`cur_refcount + delta` has type `uint64_t` (the `int64_t` delta is converted
by the usual arithmetic conversions), so it is computed mod `2 ^ 64` and the
guard comparing it against `std::numeric_limits<uint64_t>::max()` can never
be true; the pin-on-overflow branch is kept here to mirror the source but is
dead code.  Returns the C return value, the successor state, and the value
written to the optional out parameter (`none` when the source leaves it
unwritten, i.e. on every error path). -/
def mod_refcount (s : Store) (delta : Int) (now : Nat) : Int × Store × Option Nat :=
  let r1 := get_refcount s
  if r1.1 < 0 then (r1.1, s, none)
  else
    let sum := u64 ((r1.2 : Int) + delta)
    if sum > U64MAX then
      let r2 := pin_object s now
      if r2.1 < 0 then (r2.1, r2.2, none)
      else
        let r3 := set_refcount r2.2 U64MAX
        if r3.1 < 0 then (r3.1, r3.2, none)
        else (0, r3.2, some U64MAX)
    else
      let r3 := set_refcount s sum
      if r3.1 < 0 then (r3.1, r3.2, none)
      else (0, r3.2, some sum)

/-- Overwrite semantics of a single setxattr on the metadata list: any
previous binding of the key is replaced. -/
def setAttrKV (m : List (String × String)) (k v : String) : List (String × String) :=
  m.filter (fun kv => kv.1 ≠ k) ++ [(k, v)]

/-- set_cas_metadata (cls_cas.cc lines 219-238): one xattr per pair, the key
prefixed with `cas.meta.`.  The backend model never fails a setxattr on a
present object, so the early-error return of the loop is not exercised; with
an empty map the source performs no backend call at all. -/
def set_cas_metadata (s : Store) (metadata : List (String × String)) : Int × Store :=
  match s, metadata with
  | _, [] => (0, s)
  | none, _ => (-ENOENT, none)
  | some o, md =>
    (0, some { o with meta := md.foldl (fun m kv => setAttrKV m ("cas.meta." ++ kv.1) kv.2) o.meta })

/-- Decoded PUT input: the JSON envelope `{"meta": ..., "data": ...}` either
fails to parse (the source returns -EINVAL) or yields a metadata map and the
payload bytes. -/
inductive PutInput where
  | invalid : PutInput
  | valid : List (String × String) → List Nat → PutInput
deriving DecidableEq

/-- initialize_object (cls_cas.cc lines 252-289): parse the envelope, write
the payload in full, set the refcount to 1, store the metadata. -/
def initialize_object (s : Store) (input : PutInput) : Int × Store :=
  match input with
  | .invalid => (-EINVAL, s)
  | .valid metadata data =>
    let r1 := cls_cxx_write_full s data
    if r1.1 < 0 then (r1.1, r1.2)
    else
      let r2 := set_refcount r1.2 1
      if r2.1 < 0 then (r2.1, r2.2)
      else set_cas_metadata r2.2 metadata

/-- destroy_object (cls_cas.cc lines 295-315): remove the object unless it is
pinned.  The local flag starts out true (`bool pinned = true;`), so an object
whose pin xattr is present and decodes -- which leaves the flag untouched,
see `object_pinned` -- counts as pinned whatever the decoded value. -/
def destroy_object (s : Store) : Int × Store :=
  let r1 := object_pinned s true
  if r1.1 < 0 then (r1.1, s)
  else if !r1.2 then
    let r2 := cls_cxx_remove s
    if r2.1 < 0 then (r2.1, r2.2) else (0, r2.2)
  else (0, s)

/-- cls_cas_put (cls_cas.cc lines 322-341): stat first; absent objects are
initialized from the input envelope, present ones get `mod_refcount(+1)`
with the input ignored entirely. -/
def cls_cas_put (s : Store) (input : PutInput) (now : Nat) : Int × Store :=
  let stat_ret := cls_cxx_stat s
  if stat_ret = -ENOENT then initialize_object s input
  else if stat_ret < 0 then (stat_ret, s)
  else
    let r := mod_refcount s 1 now
    (r.1, r.2.1)

/-- cls_cas_up (cls_cas.cc lines 347-369): -EINVAL on an absent object,
otherwise `mod_refcount(+1)`.  The third component is the uint64 encoded
into the out bufferlist (`none` when the source encodes nothing); on a
failed mod_refcount the source still encodes the local variable, which kept
its initialization 0. -/
def cls_cas_up (s : Store) (now : Nat) : Int × Store × Option Nat :=
  let stat_ret := cls_cxx_stat s
  if stat_ret = -ENOENT then (-EINVAL, s, none)
  else if stat_ret < 0 then (stat_ret, s, none)
  else
    let r := mod_refcount s 1 now
    (r.1, r.2.1, some ((r.2.2).getD 0))

/-- cls_cas_down (cls_cas.cc lines 375-401), mirrored exactly: after
`mod_refcount(-1)` the source tests the out variable `new_refcount` (left at
its initialization 0 when mod_refcount failed) with `<= 0` and calls
destroy_object when it holds; it then encodes `new_refcount` into the out
bufferlist and executes `return new_refcount`, discarding `ret` -- both the
mod_refcount error and the destroy_object result -- and truncating the
uint64 to the C int. -/
def cls_cas_down (s : Store) (now : Nat) : Int × Store × Option Nat :=
  let stat_ret := cls_cxx_stat s
  if stat_ret = -ENOENT then (-EINVAL, s, none)
  else if stat_ret < 0 then (stat_ret, s, none)
  else
    let r := mod_refcount s (-1) now
    let new_refcount := (r.2.2).getD 0
    let s2 := if new_refcount ≤ 0 then (destroy_object r.2.1).2 else r.2.1
    (toCInt new_refcount, s2, some new_refcount)

/-- __cls_init (cls_cas.cc lines 407-418): the method names the class
registers with the objclass runtime. -/
def registered_methods : List String := ["put", "up", "down"]

/-- Modelled from the spec: the GET operation.  The class registers no read
method (`registered_methods` above); in the source repository GET is the
plain object read served by the storage backend (librados/OSD read path),
which is outside the files under verification.  Spec section 4.5: "GET(id):
PRESENT → read full payload and return it.  ABSENT → not-found error.  No
refcount side effect."  Returns the C return value, the (unchanged) state,
and the payload handed back to the caller. -/
def cas_get (s : Store) : Int × Store × Option (List Nat) :=
  match s with
  | none => (-ENOENT, none, none)
  | some o => (0, some o, some o.payload)

/-- One step of a PUT sequence: runs cls_cas_put on the threaded store and
records whether every call so far returned success. -/
def putStep (now : Nat) (acc : Bool × Store) (input : PutInput) : Bool × Store :=
  let r := cls_cas_put acc.2 input now
  (acc.1 && decide (r.1 = 0), r.2)

/-- A sequence of PUT calls against one identity, starting absent. -/
def putSeq (inputs : List PutInput) (now : Nat) : Bool × Store :=
  inputs.foldl (putStep now) (true, none)

/-- Metadata xattrs produced by creation from an empty object: each pair
stored under the `cas.meta.` namespace. -/
def metaXattrs (metadata : List (String × String)) : List (String × String) :=
  metadata.foldl (fun m kv => setAttrKV m ("cas.meta." ++ kv.1) kv.2) []

/-- Sample inputs for the C2 witness: one PUT creating the object, one more
arbitrary PUT. -/
def sampleRest : List PutInput := [PutInput.valid [("x", "y")] [9]]

/-- Sample object for the C3 witness. -/
def sampleDown : Obj :=
  { payload := [1, 2], refcountA := Attr.value 1, pinnedA := Attr.absent,
    meta := [("cas.meta.k", "v")] }

/-- Sample object for the C4 witness. -/
def samplePinnedOne : Obj :=
  { payload := [8], refcountA := Attr.value 1, pinnedA := Attr.value 99,
    meta := [("cas.meta.a", "b")] }

/-- Sample object for the C6 witness. -/
def sampleGet : Obj :=
  { payload := [3, 4], refcountA := Attr.value 2, pinnedA := Attr.absent, meta := [] }

/-- Sample object for the C9 witness. -/
def sampleSym : Obj :=
  { payload := [5], refcountA := Attr.value 5, pinnedA := Attr.value 1, meta := [] }

/-- Sample object for the C10 witness: pin attribute present with stored
value 0. -/
def samplePinZero : Obj :=
  { payload := [], refcountA := Attr.value 2, pinnedA := Attr.value 0, meta := [] }


theorem u64_le_max (z : Int) : u64 z ≤ U64MAX := by
  have h1 : z % (2 ^ 64 : Int) < 2 ^ 64 := Int.emod_lt_of_pos z (by norm_num)
  have h2 : (0 : Int) ≤ z % (2 ^ 64 : Int) := Int.emod_nonneg z (by norm_num)
  simp only [u64, U64MAX]
  omega

theorem u64_eq_of_lt (z : Int) (h0 : 0 ≤ z) (h1 : z < 2 ^ 64) : u64 z = z.toNat := by
  simp only [u64]
  rw [Int.emod_eq_of_lt h0 h1]

theorem mod_refcount_value (o : Obj) (n : Nat) (delta : Int) (now : Nat)
    (h : o.refcountA = Attr.value n) :
    mod_refcount (some o) delta now =
      (0, some { o with refcountA := Attr.value (u64 ((n : Int) + delta)) },
        some (u64 ((n : Int) + delta))) := by
  have hle := u64_le_max ((n : Int) + delta)
  simp [mod_refcount, get_refcount, h, set_refcount, Nat.not_lt.mpr hle]

theorem mod_refcount_absent (o : Obj) (delta : Int) (now : Nat)
    (h : o.refcountA = Attr.absent) :
    mod_refcount (some o) delta now =
      (0, some { o with refcountA := Attr.value (u64 delta) }, some (u64 delta)) := by
  have hle := u64_le_max delta
  simp [mod_refcount, get_refcount, h, set_refcount, Nat.not_lt.mpr hle]

theorem mod_refcount_malformed (o : Obj) (delta : Int) (now : Nat)
    (h : o.refcountA = Attr.malformed) :
    mod_refcount (some o) delta now = (- EIO, some o, none) := by
  simp [mod_refcount, get_refcount, h, EIO]

theorem set_cas_metadata_present (o : Obj) (md : List (String × String)) :
    set_cas_metadata (some o) md =
      (0, some { o with
        meta := md.foldl (fun m kv => setAttrKV m ("cas.meta." ++ kv.1) kv.2) o.meta }) := by
  cases md <;> rfl

theorem initialize_object_absent (md : List (String × String)) (d : List Nat) :
    initialize_object none (PutInput.valid md d) =
      (0, some { payload := d, refcountA := Attr.value 1, pinnedA := Attr.absent,
                 meta := metaXattrs md }) := by
  simp [initialize_object, cls_cxx_write_full, set_refcount, set_cas_metadata_present, metaXattrs]

theorem cls_cas_put_value (o : Obj) (n : Nat) (input : PutInput) (now : Nat)
    (h : o.refcountA = Attr.value n) (hlt : n + 1 < 2 ^ 64) :
    cls_cas_put (some o) input now = (0, some { o with refcountA := Attr.value (n + 1) }) := by
  have e1 : u64 ((n : Int) + 1) = n + 1 := by
    rw [u64_eq_of_lt ((n : Int) + 1) (by positivity) (by exact_mod_cast hlt)]
    omega
  simp [cls_cas_put, cls_cxx_stat, ENOENT, mod_refcount_value o n 1 now h, e1]

theorem putSeq_loop (now : Nat) (rest : List PutInput) :
    ∀ (o : Obj) (n : Nat), o.refcountA = Attr.value n → n + rest.length < 2 ^ 64 →
    rest.foldl (putStep now) (true, some o) =
      (true, some { o with refcountA := Attr.value (n + rest.length) }) := by
  induction rest with
  | nil =>
    intro o n hn _
    obtain ⟨p, rc, pin, m⟩ := o
    cases hn
    rfl
  | cons x xs ih =>
    intro o n hn hlt
    have hlen : (x :: xs).length = xs.length + 1 := rfl
    have hstep := cls_cas_put_value o n x now hn (by rw [hlen] at hlt; omega)
    have h2 : { o with refcountA := Attr.value (n + 1) }.refcountA = Attr.value (n + 1) := rfl
    have harith : n + 1 + xs.length = n + (x :: xs).length := by rw [hlen]; omega
    have hrec := ih { o with refcountA := Attr.value (n + 1) } (n + 1) h2
      (by rw [hlen] at hlt; omega)
    have hps : putStep now (true, some o) x =
        (true, some { o with refcountA := Attr.value (n + 1) }) := by
      simp [putStep, hstep]
    rw [List.foldl_cons, hps]
    rw [harith] at hrec
    exact hrec


theorem cls_cas_up_value (o : Obj) (n now : Nat) (h : o.refcountA = Attr.value n) :
    cls_cas_up (some o) now =
      (0, some { o with refcountA := Attr.value (u64 ((n : Int) + 1)) },
        some (u64 ((n : Int) + 1))) := by
  simp [cls_cas_up, cls_cxx_stat, ENOENT, mod_refcount_value o n 1 now h]

theorem cls_cas_down_value_pos (o : Obj) (n now : Nat) (h : o.refcountA = Attr.value n)
    (hpos : u64 ((n : Int) + (-1)) ≠ 0) :
    cls_cas_down (some o) now =
      (toCInt (u64 ((n : Int) + (-1))),
       some { o with refcountA := Attr.value (u64 ((n : Int) + (-1))) },
       some (u64 ((n : Int) + (-1)))) := by
  have hne : ¬ (u64 ((n : Int) + (-1)) ≤ 0) := by omega
  simp [cls_cas_down, cls_cxx_stat, ENOENT, mod_refcount_value o n (-1) now h, hne]

/-- C1 (code bug evidence): the claim fails on the code.  With the counter at
the maximum uint64 value, UP computes `cur_refcount + delta` in wrapping
uint64 arithmetic, so the overflow guard in mod_refcount is never true: the
persisted counter becomes 0 and no pin is set, instead of the counter being
clamped at the maximum with the object pinned. -/
theorem C1_up_at_max_wraps_unpinned :
    cls_cas_up (some { payload := [0], refcountA := Attr.value U64MAX,
                       pinnedA := Attr.absent, meta := [] }) 0 =
      (0, some { payload := [0], refcountA := Attr.value 0,
                 pinnedA := Attr.absent, meta := [] }, some 0) := by decide

/-- C2: create-once invariant.  Starting from an absent identity, a first PUT
with payload `d` and metadata `md` followed by arbitrary further PUT inputs
(no DOWN, total count within uint64 range) succeeds at every step and ends
with refcount equal to the number of PUTs, the payload of the first PUT and
its metadata only; moreover every PUT on a present object changes at most
the refcount attribute (no payload or metadata write). -/
theorem C2_create_once (md : List (String × String)) (d : List Nat)
    (rest : List PutInput) (now : Nat) (h : 1 + rest.length ≤ U64MAX) :
    putSeq (PutInput.valid md d :: rest) now =
      (true, some { payload := d, refcountA := Attr.value (1 + rest.length),
                    pinnedA := Attr.absent, meta := metaXattrs md }) ∧
    ∀ (o : Obj) (input : PutInput) (now2 : Nat),
      ∃ (ret : Int) (a : Attr),
        cls_cas_put (some o) input now2 = (ret, some { o with refcountA := a }) := by
  constructor
  · have hfirst : putStep now (true, none) (PutInput.valid md d) =
        (true, some { payload := d, refcountA := Attr.value 1, pinnedA := Attr.absent,
                      meta := metaXattrs md }) := by
      simp [putStep, cls_cas_put, cls_cxx_stat, initialize_object_absent]
    have hloop := putSeq_loop now rest
      { payload := d, refcountA := Attr.value 1, pinnedA := Attr.absent, meta := metaXattrs md }
      1 rfl (by simp only [U64MAX] at h; omega)
    simp only [putSeq, List.foldl_cons, hfirst]
    exact hloop
  · intro o input now2
    cases hA : o.refcountA with
    | absent =>
      exact ⟨0, Attr.value (u64 1), by
        simp [cls_cas_put, cls_cxx_stat, ENOENT, mod_refcount_absent o 1 now2 hA]⟩
    | malformed =>
      refine ⟨- EIO, o.refcountA, ?_⟩
      show cls_cas_put (some o) input now2 = (- EIO, some o)
      simp [cls_cas_put, cls_cxx_stat, ENOENT, mod_refcount_malformed o 1 now2 hA]
    | value n =>
      exact ⟨0, Attr.value (u64 ((n : Int) + 1)), by
        simp [cls_cas_put, cls_cxx_stat, ENOENT, mod_refcount_value o n 1 now2 hA]⟩

theorem C2_witness :
    1 + sampleRest.length ≤ U64MAX ∧
    (putSeq (PutInput.valid [("a", "b")] [1, 2] :: sampleRest) 7 =
      (true, some { payload := [1, 2], refcountA := Attr.value (1 + sampleRest.length),
                    pinnedA := Attr.absent, meta := metaXattrs [("a", "b")] }) ∧
     ∀ (o : Obj) (input : PutInput) (now2 : Nat),
       ∃ (ret : Int) (a : Attr),
         cls_cas_put (some o) input now2 = (ret, some { o with refcountA := a })) :=
  ⟨by decide, C2_create_once [("a", "b")] [1, 2] sampleRest 7 (by decide)⟩

/-- C3: a successful DOWN on a present, unpinned object with refcount 1 sets
the counter to 0, removes payload and all attributes (the object is absent
afterwards) and hands the counter value 0 back to the caller (both as the
encoded out value and as the return code). -/
theorem C3_down_unpinned_one_destroys (o : Obj) (now : Nat)
    (h1 : o.refcountA = Attr.value 1) (hp : o.pinnedA = Attr.absent) :
    cls_cas_down (some o) now = (0, none, some 0) := by
  obtain ⟨p, rc, pin, m⟩ := o
  subst h1
  subst hp
  rfl

theorem C3_witness :
    sampleDown.refcountA = Attr.value 1 ∧ sampleDown.pinnedA = Attr.absent ∧
    cls_cas_down (some sampleDown) 5 = (0, none, some 0) :=
  ⟨rfl, rfl, C3_down_unpinned_one_destroys sampleDown 5 rfl rfl⟩

/-- C4: DOWN on a present, pinned object with refcount 1 decrements the
counter to 0 but does not remove the object: payload, pin attribute and
metadata survive unchanged, and the counter value 0 is returned. -/
theorem C4_down_pinned_one_keeps_object (o : Obj) (t now : Nat)
    (h1 : o.refcountA = Attr.value 1) (hp : o.pinnedA = Attr.value t) :
    cls_cas_down (some o) now =
      (0, some { o with refcountA := Attr.value 0 }, some 0) := by
  obtain ⟨p, rc, pin, m⟩ := o
  subst h1
  subst hp
  rfl

theorem C4_witness :
    samplePinnedOne.refcountA = Attr.value 1 ∧ samplePinnedOne.pinnedA = Attr.value 99 ∧
    cls_cas_down (some samplePinnedOne) 4 =
      (0, some { samplePinnedOne with refcountA := Attr.value 0 }, some 0) :=
  ⟨rfl, rfl, C4_down_pinned_one_keeps_object samplePinnedOne 99 4 rfl rfl⟩

/-- C5: on an absent identity both UP and DOWN fail immediately with -EINVAL
after the stat check, leave the state untouched, create nothing, encode
nothing into the out bufferlist and never reach the destroy path. -/
theorem C5_absent_up_down_invalid (now : Nat) :
    cls_cas_up none now = (-EINVAL, none, none) ∧
    cls_cas_down none now = (-EINVAL, none, none) :=
  ⟨rfl, rfl⟩

/-- C6: the GET operation (modelled from the spec, see `cas_get`: the class
itself registers no read method) returns the full stored payload of a
present object with no state change, and a not-found error on an absent
identity. -/
theorem C6_get_spec (s : Store) :
    (∀ o : Obj, s = some o → cas_get s = (0, some o, some o.payload)) ∧
    (s = none → cas_get s = (-ENOENT, none, none)) := by
  constructor
  · intro o h
    subst h
    rfl
  · intro h
    subst h
    rfl

theorem C6_witness :
    cas_get (some sampleGet) = (0, some sampleGet, some sampleGet.payload) ∧
    cas_get none = (-ENOENT, none, none) :=
  ⟨(C6_get_spec (some sampleGet)).1 sampleGet rfl, (C6_get_spec none).2 rfl⟩

/-- C7 (code bug evidence): the claim fails on the code.  On a present,
unpinned object whose refcount attribute does not decode, mod_refcount
returns - EIO leaving the out variable at 0, so cls_cas_down takes the
`new_refcount <= 0` branch, destroys the object, and then returns
`new_refcount` (0, success) -- rather than surfacing - EIO and leaving the
object untouched. -/
theorem C7_corrupt_refcount_down_destroys :
    cls_cas_down (some { payload := [7], refcountA := Attr.malformed,
                         pinnedA := Attr.absent, meta := [] }) 0 =
      (0, none, some 0) := by decide

/-- C8 (code bug evidence): the claim fails on the code.  DOWN on a present,
pinned object whose counter is already 0 computes `0 + (-1)` in wrapping
uint64 arithmetic: the persisted counter becomes the maximum uint64 value
(not 0), the encoded out value is that maximum, and the C return value is
the int truncation -1. -/
theorem C8_down_pinned_zero_wraps :
    cls_cas_down (some { payload := [1], refcountA := Attr.value 0,
                         pinnedA := Attr.value 42, meta := [] }) 0 =
      (-1, some { payload := [1], refcountA := Attr.value U64MAX,
                  pinnedA := Attr.value 42, meta := [] }, some U64MAX) := by decide

/-- C9: increment/decrement symmetry.  For a present object with decodable
counter c, 1 ≤ c and c + 1 within uint64 range, UP persists c + 1 and
returns it, and the following DOWN restores the object to exactly its
pre-UP state, encoding c into the out bufferlist (and returning its int
truncation as the C return value). -/
theorem C9_up_down_symmetry (o : Obj) (c now now2 : Nat)
    (hc : o.refcountA = Attr.value c) (h1 : 1 ≤ c) (h2 : c + 1 ≤ U64MAX) :
    cls_cas_up (some o) now =
      (0, some { o with refcountA := Attr.value (c + 1) }, some (c + 1)) ∧
    cls_cas_down (some { o with refcountA := Attr.value (c + 1) }) now2 =
      (toCInt c, some o, some c) := by
  have hcs : c + 1 < 2 ^ 64 := by simp only [U64MAX] at h2; omega
  have e1 : u64 ((c : Int) + 1) = c + 1 := by
    rw [u64_eq_of_lt _ (by positivity) (by push_cast; omega)]
    omega
  have e2 : u64 (((c + 1 : Nat) : Int) + (-1)) = c := by
    rw [u64_eq_of_lt _ (by push_cast; omega) (by push_cast; omega)]
    omega
  have hoeq : { o with refcountA := Attr.value c } = o := by rw [← hc]
  constructor
  · rw [cls_cas_up_value o c now hc, e1]
  · have hd := cls_cas_down_value_pos { o with refcountA := Attr.value (c + 1) }
      (c + 1) now2 rfl (by rw [e2]; omega)
    rw [e2] at hd
    have h3 : ({ { o with refcountA := Attr.value (c + 1) } with
        refcountA := Attr.value c } : Obj) = o := hoeq
    rw [hd, h3]

theorem C9_witness :
    sampleSym.refcountA = Attr.value 5 ∧ 1 ≤ 5 ∧ 5 + 1 ≤ U64MAX ∧
    (cls_cas_up (some sampleSym) 2 =
        (0, some { sampleSym with refcountA := Attr.value (5 + 1) }, some (5 + 1)) ∧
     cls_cas_down (some { sampleSym with refcountA := Attr.value (5 + 1) }) 3 =
        (toCInt 5, some sampleSym, some 5)) :=
  ⟨rfl, by decide, by decide, C9_up_down_symmetry sampleSym 5 2 3 rfl (by decide) (by decide)⟩

/-- C10: on an object whose pin attribute is present and decodes,
object_pinned returns success with the caller's out variable unwritten
(whatever it held on entry, the source returns from inside the try block
before the write), and consequently destroy_object -- whose local flag
starts true -- treats the object as pinned and preserves it for every
decoded value, including a stored 0. -/
theorem C10_pin_decode_ignores_value (o : Obj) (t : Nat) (p0 : Bool)
    (hp : o.pinnedA = Attr.value t) :
    object_pinned (some o) p0 = (0, p0) ∧ destroy_object (some o) = (0, some o) := by
  constructor
  · simp [object_pinned, hp]
  · simp [destroy_object, object_pinned, hp]

theorem C10_witness :
    samplePinZero.pinnedA = Attr.value 0 ∧
    (object_pinned (some samplePinZero) true = (0, true) ∧
     destroy_object (some samplePinZero) = (0, some samplePinZero)) ∧
    object_pinned (some samplePinZero) false = (0, false) :=
  ⟨rfl, C10_pin_decode_ignores_value samplePinZero 0 true rfl,
    (C10_pin_decode_ignores_value samplePinZero 0 false rfl).1⟩

end ClsCas
